import Mathlib

/-
Verification development for the mProcess orchestration framework
(src/python/mProcess).  The Python classes Dependency (dependencyAbs.py),
Process (processAbs.py) and Container (containerAbs.py), together with the
Data carrier (dataLib.py) and the exception taxonomy (exceptionLib.py), are
shallowly embedded below: mutable objects become explicit state passing,
raised exceptions become `Except` errors, Qt signal emissions become an
explicit trace of `Sig` events, and the per-run-mode method-preference
dispatch (hasattr/getattr probing with NotImplementedError fallback) becomes
an ordered lookup over handler slots.  Subclass handler bodies, which are
arbitrary user code, are abstracted by the behaviours the abstract classes
interact with: return a value, call the success/failure helper, or raise.
The display layer (mCore.displayLib) is an external collaborator: header
events carry their unformatted label and direct console output is omitted.
-/

namespace MProcess

/-- Run level enum, dataLib.py class RunLevel. -/
inductive RunLevel
  | kAll
  | kPreDependenciesOnly
  | kPostDependenciesOnly
  | kPreAndPostDependenciesOnly
  | kProcessOnly
  | kProcessAndPostDependenciesOnly
deriving DecidableEq, Repr

/-- Run mode enum, dataLib.py class RunMode. -/
inductive RunMode
  | kTerminal
  | kParentTerminal
  | kGUI
deriving DecidableEq, Repr

/-- Display message enum, dataLib.py class DisplayMessage. -/
inductive DisplayMessage
  | kNone
  | kAll
  | kInfo
  | kSuccess
  | kWarning
  | kFailure
deriving DecidableEq, Repr

/-- Data carrier, dataLib.py class Data (constructor defaults of lines
116-169).  The open key-value extension map is not used by any core
operation and is omitted. -/
structure Data where
  runMode : RunMode := RunMode.kTerminal
  runLevel : RunLevel := RunLevel.kAll
  processesToRun : List String := []
  processesToIgnore : List String := []
  ignoreFailedPreDependencies : Bool := false
  ignoreFailedPostDependencies : Bool := false
  raiseExceptions : Bool := false
  displayMessages : DisplayMessage := DisplayMessage.kAll
  userDescription : Option String := none
  ignoreDescription : Option String := none
deriving DecidableEq, Repr

/-- Python values returned by the methods modelled here: None, or a bool. -/
inductive PyVal
  | none
  | bool (b : Bool)
deriving DecidableEq, Repr

/-- Python truthiness of a `PyVal`: None is falsy, a bool is itself. -/
def PyVal.isTruthy : PyVal → Bool
  | PyVal.none => false
  | PyVal.bool b => b

/-- Python truthiness of an optional string: None and the empty string are
falsy. -/
def strTruthy : Option String → Bool
  | Option.none => false
  | Option.some s => !(s == "")

/-- Exception taxonomy: the typed errors of exceptionLib.py plus the built-in
Python exceptions the embedded code can raise.  All of them derive from
Exception, so an `except Exception` handler catches every one of them. -/
inductive PyError
  | containerError (msg : String)
  | processError (msg : String)
  | dependencyError (msg : String)
  | notImplementedError (msg : String)
  | attributeError (msg : String)
deriving DecidableEq, Repr

/-- Python str(error) for the exceptions modelled: the carried message. -/
def PyError.str : PyError → String
  | PyError.containerError m => m
  | PyError.processError m => m
  | PyError.dependencyError m => m
  | PyError.notImplementedError m => m
  | PyError.attributeError m => m

/-- Signal emissions: the info/success/warning/failure string signals, the
boolean result signal of Dependency, and the display-header signal of
Container (carrying the unformatted header label; colouring and layout live
in the external display layer). -/
inductive Sig
  | info (s : String)
  | success (s : String)
  | warning (s : String)
  | failure (s : String)
  | result (b : Bool)
  | header (s : String)
deriving DecidableEq, Repr

/-- Python str.ljust: pad on the right with spaces to the given width. -/
def ljust (s : String) (w : Nat) : String :=
  s ++ String.mk (List.replicate (w - s.length) ' ')

/-- Python str.upper over the ASCII names used here. -/
def pyUpper (s : String) : String :=
  String.mk (s.data.map Char.toUpper)

/-- Dependency.MESSAGE_PADDING (dependencyAbs.py line 45). -/
def MESSAGE_PADDING : Nat := 52

/-- Mutable per-instance state of a Dependency, as set up by the constructor
(dependencyAbs.py lines 80-145).  `name` concretises the `_name` member that
every usable subclass assigns. -/
structure DepState where
  name : String := ""
  isActive : Bool := true
  hasFix : Bool := false
  runFixAutomatically : Bool := false
  hasAction : Bool := false
  isIgnorable : Bool := false
  isIgnored : Bool := false
  requiresDescriptionWhenIgnored : Bool := true
  failureMessage : Option String := Option.none
  isExecuted : Bool := false
  isSucceeded : Bool := false
deriving DecidableEq, Repr

/-- Behaviour of a subclass-supplied handler body, as seen by the abstract
Dependency class: return a value, return _setSuccess(msg), return
_setFailure(msg), or raise. -/
inductive DepBehavior
  | retVal (v : PyVal)
  | callSetSuccess (msg : String)
  | callSetFailure (msg : Option String)
  | raiseErr (e : PyError)
deriving DecidableEq, Repr

/-- A Dependency instance: its mutable state plus its handler slots.  The
three `_runFor*` and `_runFixFor*` method names always resolve (the base
class defines them, raising NotImplementedError resp. returning True), so
those slots always hold a behaviour.  The misspelled attribute names probed
in GUI mode, `_runParentTerminal` (dependencyAbs.py line 516) and
`_runFixParentTerminal` (line 558), are not defined by the class, so their
slots are `Option`s that default to `none` (hasattr is False). -/
structure Dependency where
  st : DepState := {}
  runForTerminal : DepBehavior :=
    DepBehavior.raiseErr (PyError.notImplementedError
      "Dependency._runForTerminal method has not been implemented.")
  runForParentTerminal : DepBehavior :=
    DepBehavior.raiseErr (PyError.notImplementedError
      "Dependency._runForParentTerminal method has not been implemented.")
  runForGUI : DepBehavior :=
    DepBehavior.raiseErr (PyError.notImplementedError
      "Dependency._runForGUI method has not been implemented.")
  runParentTerminalAttr : Option DepBehavior := Option.none
  runFixForTerminal : DepBehavior := DepBehavior.retVal (PyVal.bool true)
  runFixForParentTerminal : DepBehavior := DepBehavior.retVal (PyVal.bool true)
  runFixForGUI : DepBehavior := DepBehavior.retVal (PyVal.bool true)
  runFixParentTerminalAttr : Option DepBehavior := Option.none
deriving DecidableEq, Repr

/-- Dependency._setSuccess (dependencyAbs.py lines 191-200): mark executed
and succeeded, clear the failure message, emit the success signal and the
result signal with True, return True. -/
def depSetSuccess (d : Dependency) (successMessage : String) :
    PyVal × Dependency × List Sig :=
  (PyVal.bool true,
   { d with st := { d.st with
       isExecuted := true, isSucceeded := true, failureMessage := Option.none } },
   [Sig.success (ljust d.st.name MESSAGE_PADDING ++ " : " ++ successMessage),
    Sig.result true])

/-- Whether the run level is one of the four levels that include dependency
phases (the disjunction of dependencyAbs.py lines 233-236). -/
def runLevelHasDeps (l : RunLevel) : Bool :=
  decide (l = RunLevel.kAll) || decide (l = RunLevel.kPreDependenciesOnly) ||
  decide (l = RunLevel.kPostDependenciesOnly) ||
  decide (l = RunLevel.kPreAndPostDependenciesOnly)

/-- Dependency._setFailure (dependencyAbs.py lines 226-243): mark executed
and not succeeded, overwrite the failure message only when the argument is
truthy, emit the failure signal only when the run level includes dependency
phases and the argument is truthy, always emit the result signal with
False, return False. -/
def depSetFailure (data : Data) (d : Dependency) (failureMessage : Option String) :
    PyVal × Dependency × List Sig :=
  (PyVal.bool false,
   { d with st := { d.st with
       isExecuted := true, isSucceeded := false,
       failureMessage :=
         if strTruthy failureMessage then failureMessage else d.st.failureMessage } },
   (if runLevelHasDeps data.runLevel && strTruthy failureMessage then
      [Sig.failure (ljust d.st.name MESSAGE_PADDING ++ " : " ++
        failureMessage.getD "")]
    else []) ++ [Sig.result false])

/-- Execute one handler behaviour against a Dependency. -/
def runDepBehavior (data : Data) (d : Dependency) :
    DepBehavior → Except PyError PyVal × Dependency × List Sig
  | DepBehavior.retVal v => (Except.ok v, d, [])
  | DepBehavior.callSetSuccess m =>
      let r := depSetSuccess d m
      (Except.ok r.1, r.2.1, r.2.2)
  | DepBehavior.callSetFailure m =>
      let r := depSetFailure data d m
      (Except.ok r.1, r.2.1, r.2.2)
  | DepBehavior.raiseErr e => (Except.error e, d, [])

/-- The attribute names probed by Dependency.run (dependencyAbs.py lines
503-516): the three real method names plus the misspelled
`_runParentTerminal` used as third entry of the GUI order. -/
inductive DepRunSlot
  | forTerminal
  | forParentTerminal
  | forGUI
  | parentTerminalTypo
deriving DecidableEq, Repr

/-- Attribute lookup for a run slot: the three defined methods always
resolve, the misspelled name resolves only if the instance happens to carry
such an attribute. -/
def depRunSlot? (d : Dependency) : DepRunSlot → Option DepBehavior
  | DepRunSlot.forTerminal => Option.some d.runForTerminal
  | DepRunSlot.forParentTerminal => Option.some d.runForParentTerminal
  | DepRunSlot.forGUI => Option.some d.runForGUI
  | DepRunSlot.parentTerminalTypo => d.runParentTerminalAttr

/-- The per-run-mode method preference order of Dependency.run
(dependencyAbs.py lines 503-516).  Note the GUI order ends with the
misspelled `_runParentTerminal`. -/
def depRunMethodOrder : RunMode → List DepRunSlot
  | RunMode.kTerminal =>
      [DepRunSlot.forTerminal, DepRunSlot.forParentTerminal, DepRunSlot.forGUI]
  | RunMode.kParentTerminal =>
      [DepRunSlot.forParentTerminal, DepRunSlot.forTerminal, DepRunSlot.forGUI]
  | RunMode.kGUI =>
      [DepRunSlot.forGUI, DepRunSlot.forTerminal, DepRunSlot.parentTerminalTypo]

/-- The dispatch loop of Dependency.run (dependencyAbs.py lines 518-529):
for each probed name, if the attribute exists, set _isExecuted and call it;
a NotImplementedError moves on to the next name, any other outcome is the
result; an exhausted order raises DependencyError. -/
def depRunLoop (data : Data) :
    Dependency → List Sig → List DepRunSlot →
    Except PyError PyVal × Dependency × List Sig
  | d, sigs, [] =>
      (Except.error (PyError.dependencyError
        "No run method is available for this run mode."), d, sigs)
  | d, sigs, m :: rest =>
      match depRunSlot? d m with
      | Option.none => depRunLoop data d sigs rest
      | Option.some b =>
          let d1 := { d with st := { d.st with isExecuted := true } }
          match runDepBehavior data d1 b with
          | (Except.error (PyError.notImplementedError _), d2, s2) =>
              depRunLoop data d2 (sigs ++ s2) rest
          | (r, d2, s2) => (r, d2, sigs ++ s2)

/-- Dependency.run (dependencyAbs.py lines 499-529). -/
def depRun (data : Data) (d : Dependency) :
    Except PyError PyVal × Dependency × List Sig :=
  depRunLoop data d [] (depRunMethodOrder data.runMode)

/-- Attribute lookup for a fix slot (Dependency.runFix). -/
def depFixSlot? (d : Dependency) : DepRunSlot → Option DepBehavior
  | DepRunSlot.forTerminal => Option.some d.runFixForTerminal
  | DepRunSlot.forParentTerminal => Option.some d.runFixForParentTerminal
  | DepRunSlot.forGUI => Option.some d.runFixForGUI
  | DepRunSlot.parentTerminalTypo => d.runFixParentTerminalAttr

/-- The per-run-mode method preference order of Dependency.runFix
(dependencyAbs.py lines 545-558); the GUI order ends with the misspelled
`_runFixParentTerminal`. -/
def depFixMethodOrder : RunMode → List DepRunSlot
  | RunMode.kTerminal =>
      [DepRunSlot.forTerminal, DepRunSlot.forParentTerminal, DepRunSlot.forGUI]
  | RunMode.kParentTerminal =>
      [DepRunSlot.forParentTerminal, DepRunSlot.forTerminal, DepRunSlot.forGUI]
  | RunMode.kGUI =>
      [DepRunSlot.forGUI, DepRunSlot.forTerminal, DepRunSlot.parentTerminalTypo]

/-- The dispatch loop of Dependency.runFix (dependencyAbs.py lines 560-569):
like the run loop but without touching _isExecuted. -/
def depFixLoop (data : Data) :
    Dependency → List Sig → List DepRunSlot →
    Except PyError PyVal × Dependency × List Sig
  | d, sigs, [] =>
      (Except.error (PyError.dependencyError
        "No run fix method is available for this run mode."), d, sigs)
  | d, sigs, m :: rest =>
      match depFixSlot? d m with
      | Option.none => depFixLoop data d sigs rest
      | Option.some b =>
          match runDepBehavior data d b with
          | (Except.error (PyError.notImplementedError _), d2, s2) =>
              depFixLoop data d2 (sigs ++ s2) rest
          | (r, d2, s2) => (r, d2, sigs ++ s2)

/-- Dependency.runFix (dependencyAbs.py lines 538-569): a no-op returning
False when _hasFix is False, otherwise mode dispatch among the fix
handlers. -/
def depRunFix (data : Data) (d : Dependency) :
    Except PyError PyVal × Dependency × List Sig :=
  if !d.st.hasFix then (Except.ok (PyVal.bool false), d, [])
  else depFixLoop data d [] (depFixMethodOrder data.runMode)

/-- Dependency.displayAutoIgnoredMessage (dependencyAbs.py lines 477-479):
emit the auto-ignored notice through _setInfo. -/
def depDisplayAutoIgnoredMessage (d : Dependency) : List Sig :=
  [Sig.info (ljust d.st.name MESSAGE_PADDING ++ " : " ++
    "This dependency has been automatically ignored by the container.")]

/-- Dependency.reset (dependencyAbs.py lines 487-491). -/
def depReset (d : Dependency) : Dependency :=
  { d with st := { d.st with
      isExecuted := false, isSucceeded := false, failureMessage := Option.none } }

/-- The method and property names the Dependency class defines
(dependencyAbs.py).  Note that `setIgnored` is not among them: the class
exposes `isIgnored` but no setter, although processAbs.py lines 802 and 841
invoke `setIgnored` on Dependency instances. -/
def dependencyMethodNames : List String :=
  ["data", "kwargs", "name", "description", "isActive", "hasFix",
   "runFixAutomatically", "hasAction", "isIgnorable", "isIgnored",
   "requiresDescriptionWhenIgnored", "failureMessage", "isExecuted",
   "isSucceeded", "displayAutoIgnoredMessage", "reset", "run", "runFix",
   "runAction", "isActionRunnable", "shouldInitialize"]

/-- Attribute lookup of `setIgnored` on a Dependency instance: the class
defines no such method, so the slot is empty. -/
def depSetIgnoredLookup : Option (Dependency → Bool → PyVal × Dependency) :=
  Option.none

/-- The call `_dependencyClassInstance.setIgnored(state)` as written at
processAbs.py lines 802 and 841: attribute lookup on the Dependency class
fails, so the call raises AttributeError. -/
def depCallSetIgnored (d : Dependency) (state : Bool) :
    Except PyError (PyVal × Dependency) :=
  match depSetIgnoredLookup with
  | Option.some f => Except.ok (f d state)
  | Option.none =>
      Except.error (PyError.attributeError
        "Dependency object has no attribute setIgnored")

/-- Mutable per-instance state of a Process, as set up by the constructor
(processAbs.py lines 77-151; the GUI collapse flags are display-only and
omitted). -/
structure ProcState where
  name : String := ""
  isActive : Bool := true
  isIgnorable : Bool := false
  isIgnored : Bool := false
  requiresDescriptionWhenIgnored : Bool := true
deriving DecidableEq, Repr

/-- Behaviour of a subclass-supplied Process run body, as seen by the
abstract Process class. -/
inductive ProcBehavior
  | retVal (v : PyVal)
  | callSetSuccess (msg : String)
  | callSetFailure (msg : Option String)
  | raiseErr (e : PyError)
deriving DecidableEq, Repr

/-- A Process instance: state, its two ordered dependency lists, and its run
handler slots.  As for Dependency, the three `_runFor*` names always resolve
while the misspelled `_runParentTerminal` probed third in GUI mode
(processAbs.py line 749) resolves only if the instance happens to carry such
an attribute. -/
structure Process where
  st : ProcState := {}
  preDependencyList : List Dependency := []
  postDependencyList : List Dependency := []
  runForTerminal : ProcBehavior :=
    ProcBehavior.raiseErr (PyError.notImplementedError
      "Process._runForTerminal method has not been implemented.")
  runForParentTerminal : ProcBehavior :=
    ProcBehavior.raiseErr (PyError.notImplementedError
      "Process._runForParentTerminal method has not been implemented.")
  runForGUI : ProcBehavior :=
    ProcBehavior.raiseErr (PyError.notImplementedError
      "Process._runForGUI method has not been implemented.")
  runParentTerminalAttr : Option ProcBehavior := Option.none
deriving DecidableEq, Repr

/-- Process._setSuccess (processAbs.py lines 197-201): emit the success
signal and return True; no state is touched. -/
def procSetSuccess (p : Process) (successMessage : String) : PyVal × List Sig :=
  (PyVal.bool true, [Sig.success (p.st.name ++ " : " ++ successMessage)])

/-- Process._setFailure (processAbs.py lines 227-235): emit the failure
signal only when the run level is kAll or kProcessOnly and the message is
truthy; return False; no state is touched. -/
def procSetFailure (data : Data) (p : Process) (failureMessage : Option String) :
    PyVal × List Sig :=
  (PyVal.bool false,
   if (decide (data.runLevel = RunLevel.kAll) ||
       decide (data.runLevel = RunLevel.kProcessOnly)) &&
      strTruthy failureMessage then
     [Sig.failure (p.st.name ++ " : " ++ failureMessage.getD "")]
   else [])

/-- Process.setIgnored (processAbs.py lines 666-673): refuse with False when
the process is not ignorable, otherwise set the flag and return True. -/
def procSetIgnored (p : Process) (state : Bool) : Bool × Process :=
  if !p.st.isIgnorable then (false, p)
  else (true, { p with st := { p.st with isIgnored := state } })

/-- Execute one run-body behaviour against a Process (no state change). -/
def runProcBehavior (data : Data) (p : Process) :
    ProcBehavior → Except PyError PyVal × List Sig
  | ProcBehavior.retVal v => (Except.ok v, [])
  | ProcBehavior.callSetSuccess m =>
      let r := procSetSuccess p m
      (Except.ok r.1, r.2)
  | ProcBehavior.callSetFailure m =>
      let r := procSetFailure data p m
      (Except.ok r.1, r.2)
  | ProcBehavior.raiseErr e => (Except.error e, [])

/-- Attribute lookup for a Process run slot. -/
def procRunSlot? (p : Process) : DepRunSlot → Option ProcBehavior
  | DepRunSlot.forTerminal => Option.some p.runForTerminal
  | DepRunSlot.forParentTerminal => Option.some p.runForParentTerminal
  | DepRunSlot.forGUI => Option.some p.runForGUI
  | DepRunSlot.parentTerminalTypo => p.runParentTerminalAttr

/-- The per-run-mode method preference order of Process.run (processAbs.py
lines 736-749); the GUI order ends with the misspelled
`_runParentTerminal`. -/
def procRunMethodOrder : RunMode → List DepRunSlot
  | RunMode.kTerminal =>
      [DepRunSlot.forTerminal, DepRunSlot.forParentTerminal, DepRunSlot.forGUI]
  | RunMode.kParentTerminal =>
      [DepRunSlot.forParentTerminal, DepRunSlot.forTerminal, DepRunSlot.forGUI]
  | RunMode.kGUI =>
      [DepRunSlot.forGUI, DepRunSlot.forTerminal, DepRunSlot.parentTerminalTypo]

/-- The dispatch loop of Process.run (processAbs.py lines 751-760). -/
def procRunLoop (data : Data) (p : Process) :
    List Sig → List DepRunSlot → Except PyError PyVal × List Sig
  | sigs, [] =>
      (Except.error (PyError.processError
        "No run method is available for this run mode."), sigs)
  | sigs, m :: rest =>
      match procRunSlot? p m with
      | Option.none => procRunLoop data p sigs rest
      | Option.some b =>
          match runProcBehavior data p b with
          | (Except.error (PyError.notImplementedError _), s2) =>
              procRunLoop data p (sigs ++ s2) rest
          | (r, s2) => (r, sigs ++ s2)

/-- Process.run (processAbs.py lines 732-760). -/
def procRun (data : Data) (p : Process) : Except PyError PyVal × List Sig :=
  procRunLoop data p [] (procRunMethodOrder data.runMode)

/-- The body of the per-dependency iteration of Process.runPreDependencies
(processAbs.py lines 774-807), split at the `if not runResult` check: given
the dependency state and the run result so far, apply the fallback policy
(auto-ignore, or automatic fix with the forced-ignore branch that invokes
the missing Dependency.setIgnored) and either skip the dependency, record a
result for it, or propagate a raised exception. -/
inductive DepStepOut
  | skipped (d : Dependency) (sigs : List Sig)
  | recorded (d : Dependency) (res : PyVal) (sigs : List Sig)
  | raised (e : PyError) (d : Dependency) (sigs : List Sig)
deriving DecidableEq, Repr

/-- The `if not runResult:` block of Process.runPreDependencies
(processAbs.py lines 793-805). -/
def preDepFallback (data : Data) (d : Dependency) (runResult : PyVal) :
    DepStepOut :=
  if !runResult.isTruthy then
    if data.ignoreFailedPreDependencies && d.st.isIgnorable then
      DepStepOut.skipped d (depDisplayAutoIgnoredMessage d)
    else if d.st.hasFix && d.st.runFixAutomatically then
      match depRunFix data d with
      | (Except.error e, d2, s2) => DepStepOut.raised e d2 s2
      | (Except.ok fv, d2, s2) =>
          if !fv.isTruthy && data.ignoreFailedPreDependencies then
            match depCallSetIgnored d2 true with
            | Except.error e => DepStepOut.raised e d2 s2
            | Except.ok r => DepStepOut.recorded r.2 (PyVal.bool true) s2
          else DepStepOut.recorded d2 runResult s2
    else DepStepOut.recorded d runResult []
  else DepStepOut.recorded d runResult []

/-- One pre-dependency iteration (processAbs.py lines 774-805): skip ignored
dependencies, run the dependency, on a raised exception apply the
auto-ignore / raise / record-failure policy, then apply the
`if not runResult` fallback. -/
def preDepStep (data : Data) (p : Process) (d : Dependency) : DepStepOut :=
  if d.st.isIgnored then DepStepOut.skipped d []
  else
    match depRun data d with
    | (Except.error e, d1, s1) =>
        if data.ignoreFailedPreDependencies && d1.st.isIgnorable then
          DepStepOut.skipped d1 (s1 ++ depDisplayAutoIgnoredMessage d1)
        else if data.raiseExceptions then DepStepOut.raised e d1 s1
        else
          let f := procSetFailure data p (Option.some e.str)
          match preDepFallback data d1 (PyVal.bool false) with
          | DepStepOut.skipped d2 s2 => DepStepOut.skipped d2 (s1 ++ f.2 ++ s2)
          | DepStepOut.recorded d2 r s2 =>
              DepStepOut.recorded d2 r (s1 ++ f.2 ++ s2)
          | DepStepOut.raised e2 d2 s2 => DepStepOut.raised e2 d2 (s1 ++ f.2 ++ s2)
    | (Except.ok v, d1, s1) =>
        match preDepFallback data d1 v with
        | DepStepOut.skipped d2 s2 => DepStepOut.skipped d2 (s1 ++ s2)
        | DepStepOut.recorded d2 r s2 => DepStepOut.recorded d2 r (s1 ++ s2)
        | DepStepOut.raised e2 d2 s2 => DepStepOut.raised e2 d2 (s1 ++ s2)

/-- Python `False in resultList` over the collected run results: membership
under `==`, which among the modelled values holds exactly for the bool
False (None == False is False in Python). -/
def listHasPyFalse : List PyVal → Bool
  | [] => false
  | PyVal.bool false :: _ => true
  | _ :: rest => listHasPyFalse rest

/-- The iteration of Process.runPreDependencies over its dependency list,
accumulating updated dependencies, collected results and emitted signals;
a raised exception aborts the loop with the mutations made so far. -/
def preDepsLoop (data : Data) (p : Process) :
    List Dependency → List PyVal → List Dependency → List Sig →
    Except PyError PyVal × List Dependency × List Sig
  | [], acc, done, sigs =>
      (Except.ok (PyVal.bool (!listHasPyFalse acc)), done.reverse, sigs)
  | d :: rest, acc, done, sigs =>
      match preDepStep data p d with
      | DepStepOut.skipped d1 s1 =>
          preDepsLoop data p rest acc (d1 :: done) (sigs ++ s1)
      | DepStepOut.recorded d1 r s1 =>
          preDepsLoop data p rest (acc ++ [r]) (d1 :: done) (sigs ++ s1)
      | DepStepOut.raised e d1 s1 =>
          (Except.error e, done.reverse ++ d1 :: rest, sigs ++ s1)

/-- Process.runPreDependencies (processAbs.py lines 768-807). -/
def procRunPreDependencies (data : Data) (p : Process) :
    Except PyError PyVal × Process × List Sig :=
  match p.preDependencyList with
  | [] => (Except.ok (PyVal.bool true), p, [])
  | deps =>
      let r := preDepsLoop data p deps [] [] []
      (r.1, { p with preDependencyList := r.2.1 }, r.2.2)

/-- The `if not runResult:` block of Process.runPostDependencies
(processAbs.py lines 835-843): unlike the pre-phase block it has no
auto-ignore arm, but its forced-ignore branch also consults
ignoreFailedPreDependencies (line 840) and invokes the missing
Dependency.setIgnored. -/
def postDepFallback (data : Data) (d : Dependency) (runResult : PyVal) :
    DepStepOut :=
  if !runResult.isTruthy then
    if d.st.hasFix && d.st.runFixAutomatically then
      match depRunFix data d with
      | (Except.error e, d2, s2) => DepStepOut.raised e d2 s2
      | (Except.ok fv, d2, s2) =>
          if !fv.isTruthy && data.ignoreFailedPreDependencies then
            match depCallSetIgnored d2 true with
            | Except.error e => DepStepOut.raised e d2 s2
            | Except.ok r => DepStepOut.recorded r.2 (PyVal.bool true) s2
          else DepStepOut.recorded d2 runResult s2
    else DepStepOut.recorded d runResult []
  else DepStepOut.recorded d runResult []

/-- One post-dependency iteration (processAbs.py lines 821-844): the
exception path has no auto-ignore arm (raise or record a failure message),
then the post fallback applies. -/
def postDepStep (data : Data) (p : Process) (d : Dependency) : DepStepOut :=
  if d.st.isIgnored then DepStepOut.skipped d []
  else
    match depRun data d with
    | (Except.error e, d1, s1) =>
        if data.raiseExceptions then DepStepOut.raised e d1 s1
        else
          let f := procSetFailure data p (Option.some e.str)
          match postDepFallback data d1 (PyVal.bool false) with
          | DepStepOut.skipped d2 s2 => DepStepOut.skipped d2 (s1 ++ f.2 ++ s2)
          | DepStepOut.recorded d2 r s2 =>
              DepStepOut.recorded d2 r (s1 ++ f.2 ++ s2)
          | DepStepOut.raised e2 d2 s2 => DepStepOut.raised e2 d2 (s1 ++ f.2 ++ s2)
    | (Except.ok v, d1, s1) =>
        match postDepFallback data d1 v with
        | DepStepOut.skipped d2 s2 => DepStepOut.skipped d2 (s1 ++ s2)
        | DepStepOut.recorded d2 r s2 => DepStepOut.recorded d2 r (s1 ++ s2)
        | DepStepOut.raised e2 d2 s2 => DepStepOut.raised e2 d2 (s1 ++ s2)

/-- The iteration of Process.runPostDependencies over its dependency
list. -/
def postDepsLoop (data : Data) (p : Process) :
    List Dependency → List PyVal → List Dependency → List Sig →
    Except PyError PyVal × List Dependency × List Sig
  | [], acc, done, sigs =>
      (Except.ok (PyVal.bool (!listHasPyFalse acc)), done.reverse, sigs)
  | d :: rest, acc, done, sigs =>
      match postDepStep data p d with
      | DepStepOut.skipped d1 s1 =>
          postDepsLoop data p rest acc (d1 :: done) (sigs ++ s1)
      | DepStepOut.recorded d1 r s1 =>
          postDepsLoop data p rest (acc ++ [r]) (d1 :: done) (sigs ++ s1)
      | DepStepOut.raised e d1 s1 =>
          (Except.error e, done.reverse ++ d1 :: rest, sigs ++ s1)

/-- Process.runPostDependencies (processAbs.py lines 815-845). -/
def procRunPostDependencies (data : Data) (p : Process) :
    Except PyError PyVal × Process × List Sig :=
  match p.postDependencyList with
  | [] => (Except.ok (PyVal.bool true), p, [])
  | deps =>
      let r := postDepsLoop data p deps [] [] []
      (r.1, { p with postDependencyList := r.2.1 }, r.2.2)

/-- Behaviour of the _beforeRun / _afterRun hooks (containerAbs.py lines
892-904, base default: return True); subclass overrides are abstracted as a
returned value or a raised exception. -/
inductive HookBehavior
  | retVal (v : PyVal)
  | raiseErr (e : PyError)
deriving DecidableEq, Repr

/-- Execute a hook behaviour. -/
def runHook : HookBehavior → Except PyError PyVal
  | HookBehavior.retVal v => Except.ok v
  | HookBehavior.raiseErr e => Except.error e

/-- Behaviour of a Container mode runner slot: the canonical base
implementation of _runForTerminal (containerAbs.py lines 979-1091), a body
raising NotImplementedError (the base default of _runForParentTerminal and
_runForGUI), or an abstracted subclass override. -/
inductive ContRunBehavior
  | canonical
  | notImplB (msg : String)
  | retVal (v : PyVal)
  | raiseErr (e : PyError)
deriving DecidableEq, Repr

/-- A Container instance: configuration, identity, discovered process list,
initialization flags, hook behaviours and mode runner slots.  As for the
other classes, the misspelled `_runParentTerminal` probed third in GUI mode
(containerAbs.py line 961) resolves only if the instance carries such an
attribute. -/
structure Container where
  data : Data := {}
  name : String := ""
  className : String := ""
  processList : List Process := []
  hasInitialized : Bool := false
  haveProcessesInitialized : Bool := false
  requiresUserDescription : Bool := true
  beforeRunB : HookBehavior := HookBehavior.retVal (PyVal.bool true)
  afterRunB : HookBehavior := HookBehavior.retVal (PyVal.bool true)
  runForTerminalSlot : ContRunBehavior := ContRunBehavior.canonical
  runForParentTerminalSlot : ContRunBehavior :=
    ContRunBehavior.notImplB
      "Container._runForParentTerminal method has not been implemented."
  runForGUISlot : ContRunBehavior :=
    ContRunBehavior.notImplB
      "Container._runForGUI method has not been implemented."
  runParentTerminalAttr : Option ContRunBehavior := Option.none
deriving DecidableEq, Repr

/-- Whether the run level includes the pre-dependency phase (the disjunction
of containerAbs.py lines 986-988). -/
def runLevelHasPre (l : RunLevel) : Bool :=
  decide (l = RunLevel.kAll) || decide (l = RunLevel.kPreDependenciesOnly) ||
  decide (l = RunLevel.kPreAndPostDependenciesOnly)

/-- Whether the run level includes the process phase (the disjunction of
containerAbs.py lines 1027-1029). -/
def runLevelHasProcess (l : RunLevel) : Bool :=
  decide (l = RunLevel.kAll) || decide (l = RunLevel.kProcessOnly) ||
  decide (l = RunLevel.kProcessAndPostDependenciesOnly)

/-- Whether the run level includes the post-dependency phase (the
disjunction of containerAbs.py lines 1066-1069). -/
def runLevelHasPost (l : RunLevel) : Bool :=
  decide (l = RunLevel.kAll) || decide (l = RunLevel.kPostDependenciesOnly) ||
  decide (l = RunLevel.kPreAndPostDependenciesOnly) ||
  decide (l = RunLevel.kProcessAndPostDependenciesOnly)

/-- The dependency-phase loop of Container._runForTerminal, shared shape of
the pre-dependency loop (lines 990-1004) and the post-dependency loop
(lines 1071-1085): skip ignored processes, emit the phase header, run the
given dependency phase of the process, and on a non-True result either skip
the process (note: both loops consult ignoreFailedPreDependencies, line 999
and line 1080) or clear the overall result flag.  A raised exception aborts
the loop. -/
def containerDepPhaseLoop (data : Data)
    (phase : Data → Process → Except PyError PyVal × Process × List Sig)
    (label : String) :
    List Process → Bool → List Process → List Sig →
    Except PyError Bool × List Process × List Sig
  | [], result, done, sigs => (Except.ok result, done.reverse, sigs)
  | p :: rest, result, done, sigs =>
      if p.st.isIgnored then
        containerDepPhaseLoop data phase label rest result (p :: done) sigs
      else
        let hdr := [Sig.header (pyUpper p.st.name ++ " - " ++ label)]
        match phase data p with
        | (Except.error e, p1, s1) =>
            (Except.error e, done.reverse ++ p1 :: rest, sigs ++ hdr ++ s1)
        | (Except.ok v, p1, s1) =>
            if !(decide (v = PyVal.bool true)) then
              if data.ignoreFailedPreDependencies && p1.st.isIgnorable then
                containerDepPhaseLoop data phase label rest result (p1 :: done)
                  (sigs ++ hdr ++ s1)
              else
                containerDepPhaseLoop data phase label rest false (p1 :: done)
                  (sigs ++ hdr ++ s1)
            else
              containerDepPhaseLoop data phase label rest result (p1 :: done)
                (sigs ++ hdr ++ s1)

/-- The process-phase loop of Container._runForTerminal (containerAbs.py
lines 1031-1044): skip ignored processes, emit the process header, run the
body and append its result; a raised exception is re-raised when
raiseExceptions is set and otherwise converted into a container failure
message (appending nothing to the result list). -/
def containerProcessLoop (data : Data) :
    List Process → List PyVal → List Sig → Except PyError (List PyVal) × List Sig
  | [], acc, sigs => (Except.ok acc, sigs)
  | p :: rest, acc, sigs =>
      if p.st.isIgnored then containerProcessLoop data rest acc sigs
      else
        let hdr := [Sig.header (pyUpper p.st.name ++ " - PROCESS")]
        match procRun data p with
        | (Except.error e, s1) =>
            if data.raiseExceptions then (Except.error e, sigs ++ hdr ++ s1)
            else
              containerProcessLoop data rest acc
                (sigs ++ hdr ++ s1 ++ [Sig.failure e.str])
        | (Except.ok v, s1) =>
            containerProcessLoop data rest (acc ++ [v]) (sigs ++ hdr ++ s1)

/-- The body of Container._runForTerminal (containerAbs.py lines 979-1091)
over the members it reads — the shared configuration, the container name
and the process list: emit the container header; when the run level
includes them, run the pre-dependency phase (failing fast with the message
`Pre dependency failed.`), the process phase (failing when any collected
result equals False), and the post-dependency phase (message
`Post dependency failed.`); return True when every phase that ran produced
no failure.  The info separators printed directly through the external
display layer (lines 1013-1021 and 1053-1061) produce no signal and are
omitted. -/
def containerRunForTerminalCore (dd : Data) (name : String)
    (ps0 : List Process) : Except PyError PyVal × List Process × List Sig :=
  let sigs0 := [Sig.header (pyUpper name ++ " - CONTAINER")]
  let preOut :=
    if runLevelHasPre dd.runLevel then
      containerDepPhaseLoop dd procRunPreDependencies "PRE DEPENDENCY"
        ps0 true [] sigs0
    else (Except.ok true, ps0, sigs0)
  match preOut with
  | (Except.error e, ps, s) => (Except.error e, ps, s)
  | (Except.ok result, ps, s) =>
      if !result then
        (Except.ok (PyVal.bool false), ps,
         s ++ [Sig.failure "Pre dependency failed."])
      else
        let procOut :=
          if runLevelHasProcess dd.runLevel then
            containerProcessLoop dd ps [] s
          else (Except.ok [], s)
        match procOut with
        | (Except.error e, s2) => (Except.error e, ps, s2)
        | (Except.ok results, s2) =>
            if listHasPyFalse results then
              (Except.ok (PyVal.bool false), ps, s2)
            else
              let postOut :=
                if runLevelHasPost dd.runLevel then
                  containerDepPhaseLoop dd procRunPostDependencies
                    "POST DEPENDENCY" ps result [] s2
                else (Except.ok result, ps, s2)
              match postOut with
              | (Except.error e, ps3, s3) => (Except.error e, ps3, s3)
              | (Except.ok result3, ps3, s3) =>
                  if !result3 then
                    (Except.ok (PyVal.bool false), ps3,
                     s3 ++ [Sig.failure "Post dependency failed."])
                  else (Except.ok (PyVal.bool true), ps3, s3)

/-- Container._runForTerminal as a method: run the body over the members it
reads and store the (in-place mutated) process list back. -/
def containerRunForTerminal (c : Container) :
    Except PyError PyVal × Container × List Sig :=
  ((containerRunForTerminalCore c.data c.name c.processList).1,
   { c with processList :=
       (containerRunForTerminalCore c.data c.name c.processList).2.1 },
   (containerRunForTerminalCore c.data c.name c.processList).2.2)

/-- Execute a Container mode runner slot. -/
def runContSlot (c : Container) :
    ContRunBehavior → Except PyError PyVal × Container × List Sig
  | ContRunBehavior.canonical => containerRunForTerminal c
  | ContRunBehavior.notImplB m =>
      (Except.error (PyError.notImplementedError m), c, [])
  | ContRunBehavior.retVal v => (Except.ok v, c, [])
  | ContRunBehavior.raiseErr e => (Except.error e, c, [])

/-- Attribute lookup for a Container run slot. -/
def contRunSlot? (c : Container) : DepRunSlot → Option ContRunBehavior
  | DepRunSlot.forTerminal => Option.some c.runForTerminalSlot
  | DepRunSlot.forParentTerminal => Option.some c.runForParentTerminalSlot
  | DepRunSlot.forGUI => Option.some c.runForGUISlot
  | DepRunSlot.parentTerminalTypo => c.runParentTerminalAttr

/-- The per-run-mode method preference order of Container._run
(containerAbs.py lines 948-961); the GUI order ends with the misspelled
`_runParentTerminal`. -/
def contRunMethodOrder : RunMode → List DepRunSlot
  | RunMode.kTerminal =>
      [DepRunSlot.forTerminal, DepRunSlot.forParentTerminal, DepRunSlot.forGUI]
  | RunMode.kParentTerminal =>
      [DepRunSlot.forParentTerminal, DepRunSlot.forTerminal, DepRunSlot.forGUI]
  | RunMode.kGUI =>
      [DepRunSlot.forGUI, DepRunSlot.forTerminal, DepRunSlot.parentTerminalTypo]

/-- The dispatch loop of Container._run (containerAbs.py lines 963-971). -/
def contDispatchLoop :
    Container → List Sig → List DepRunSlot →
    Except PyError PyVal × Container × List Sig
  | c, sigs, [] =>
      (Except.error (PyError.containerError
        "No run method is available for this run mode."), c, sigs)
  | c, sigs, m :: rest =>
      match contRunSlot? c m with
      | Option.none => contDispatchLoop c sigs rest
      | Option.some b =>
          match runContSlot c b with
          | (Except.error (PyError.notImplementedError _), c2, s2) =>
              contDispatchLoop c2 (sigs ++ s2) rest
          | (r, c2, s2) => (r, c2, sigs ++ s2)

/-- Container._run (containerAbs.py lines 912-971): fail with an emitted
message and False when no process was discovered; enforce the
user-description guard (raising ContainerError when raiseExceptions is set,
otherwise emitting a failure and returning False); then dispatch through
the per-run-mode method preference order. -/
def containerRunDispatch (c : Container) :
    Except PyError PyVal × Container × List Sig :=
  match c.processList with
  | [] =>
      (Except.ok (PyVal.bool false), c,
       [Sig.failure ("No process found for this container: " ++ c.name)])
  | _ :: _ =>
      let errorMessage :=
        "User description is required, please set a user description via \"" ++
        c.className ++ ".setUserDescription\" method."
      if c.requiresUserDescription && !strTruthy c.data.userDescription then
        if c.data.raiseExceptions then
          (Except.error (PyError.containerError errorMessage), c, [])
        else
          (Except.ok (PyVal.bool false), c, [Sig.failure errorMessage])
      else contDispatchLoop c [] (contRunMethodOrder c.data.runMode)

/-- Container.run (containerAbs.py lines 1366-1398): return False at once
when the container never initialized; run _beforeRun, _run and _afterRun in
turn, returning False on a falsy outcome; every raised exception is either
re-raised (raiseExceptions) or converted by `return self._setFailure(...)`,
which emits the failure message and returns None because the _setFailure
method of Container (lines 610-612) has no return value. -/
def containerRun (c : Container) : Except PyError PyVal × Container × List Sig :=
  if !c.hasInitialized then (Except.ok (PyVal.bool false), c, [])
  else
    match runHook c.beforeRunB with
    | Except.error e =>
        if c.data.raiseExceptions then (Except.error e, c, [])
        else (Except.ok PyVal.none, c, [Sig.failure e.str])
    | Except.ok v =>
        if !v.isTruthy then (Except.ok (PyVal.bool false), c, [])
        else
          match containerRunDispatch c with
          | (Except.error e, c1, s1) =>
              if c.data.raiseExceptions then (Except.error e, c1, s1)
              else (Except.ok PyVal.none, c1, s1 ++ [Sig.failure e.str])
          | (Except.ok v1, c1, s1) =>
              if !v1.isTruthy then (Except.ok (PyVal.bool false), c1, s1)
              else
                match runHook c.afterRunB with
                | Except.error e =>
                    if c.data.raiseExceptions then (Except.error e, c1, s1)
                    else (Except.ok PyVal.none, c1, s1 ++ [Sig.failure e.str])
                | Except.ok v2 =>
                    if !v2.isTruthy then (Except.ok (PyVal.bool false), c1, s1)
                    else (Except.ok (PyVal.bool true), c1, s1)

/-- The invariant of the Dependency execution triple: a dependency that is
not marked executed is not marked succeeded and carries no failure
message. -/
def DepInv (s : DepState) : Prop :=
  s.isExecuted = false → s.isSucceeded = false ∧ s.failureMessage = Option.none

/-- The given Data with the ignoreFailedPostDependencies flag replaced. -/
def Data.withIgnorePost (dd : Data) (b : Bool) : Data :=
  { dd with ignoreFailedPostDependencies := b }

/-- The given Container with the ignoreFailedPostDependencies flag of its
shared configuration replaced. -/
def Container.withIgnorePost (c : Container) (b : Bool) : Container :=
  { c with data := c.data.withIgnorePost b }

/-- A pre-dependency that is ignorable and whose terminal runner always
fails through _setFailure. -/
def c2FailDep : Dependency :=
  { st := { name := "depA", isIgnorable := true },
    runForTerminal := DepBehavior.callSetFailure (Option.some "always fails") }

/-- Terminal-mode configuration with ignoreFailedPreDependencies set. -/
def c2Data : Data := { ignoreFailedPreDependencies := true }

/-- A process holding the single always-failing ignorable pre-dependency. -/
def c2Process : Process :=
  { st := { name := "procA" }, preDependencyList := [c2FailDep] }

/-- A process whose terminal body raises an ordinary exception. -/
def c1BodyRaisesProcess : Process :=
  { st := { name := "p1" },
    runForTerminal := ProcBehavior.raiseErr
      (PyError.processError "process body exploded") }

/-- A fully initialized non-raising container whose only process body
raises. -/
def c1BodyRaisesContainer : Container :=
  { name := "c1", hasInitialized := true, requiresUserDescription := false,
    processList := [c1BodyRaisesProcess] }

/-- A non-ignorable pre-dependency whose terminal runner returns False. -/
def c1FailDep : Dependency :=
  { st := { name := "dep1" },
    runForTerminal := DepBehavior.retVal (PyVal.bool false) }

/-- A process gated by the failing pre-dependency, with a succeeding
body. -/
def c1DepFailProcess : Process :=
  { st := { name := "p2" }, preDependencyList := [c1FailDep],
    runForTerminal := ProcBehavior.retVal (PyVal.bool true) }

/-- A fully initialized non-raising container whose only process has a
failing pre-dependency. -/
def c1DepFailContainer : Container :=
  { name := "c2", hasInitialized := true, requiresUserDescription := false,
    processList := [c1DepFailProcess] }

/-- A fully initialized non-raising container whose _beforeRun hook
raises. -/
def c1BeforeRunRaisesContainer : Container :=
  { name := "c3", hasInitialized := true, requiresUserDescription := false,
    processList := [c1BodyRaisesProcess],
    beforeRunB := HookBehavior.raiseErr (PyError.containerError "kaboom") }

/-- A fully initialized non-raising container with an empty process list,
as left behind by a failed discovery. -/
def c1EmptyProcessContainer : Container :=
  { name := "c4", hasInitialized := true, requiresUserDescription := false }

/-- GUI-mode configuration. -/
def guiData : Data := { runMode := RunMode.kGUI }

/-- A dependency implementing only the ParentTerminal runner. -/
def c3OnlyParentTerminalDep : Dependency :=
  { st := { name := "dPT" },
    runForParentTerminal := DepBehavior.retVal (PyVal.bool true) }

/-- A dependency implementing only the Terminal runner. -/
def c3OnlyTerminalDep : Dependency :=
  { st := { name := "dT" },
    runForTerminal := DepBehavior.retVal (PyVal.bool true) }

/-- A process implementing only the ParentTerminal runner. -/
def c3OnlyParentTerminalProcess : Process :=
  { st := { name := "pPT" },
    runForParentTerminal := ProcBehavior.retVal (PyVal.bool true) }

/-- A GUI-mode container implementing only the ParentTerminal runner (its
Terminal slot overridden to raise NotImplementedError like the other base
stubs). -/
def c3Container : Container :=
  { data := guiData, name := "c5", hasInitialized := true,
    requiresUserDescription := false,
    processList := [{ st := { name := "q" } }],
    runForTerminalSlot := ContRunBehavior.notImplB
      "Container._runForTerminal method has not been implemented.",
    runForParentTerminalSlot := ContRunBehavior.retVal (PyVal.bool true) }

/-- A dependency none of whose three mode runners is implemented (all base
stubs). -/
def c4AllNotImplDep : Dependency := { st := { name := "d4" } }

/-- A process none of whose three mode runners is implemented. -/
def c4AllNotImplProcess : Process := { st := { name := "p4" } }

/-- A container none of whose three mode runner slots is implemented. -/
def c4AllNotImplContainer : Container :=
  { name := "c6", hasInitialized := true, requiresUserDescription := false,
    processList := [{ st := { name := "q4" } }],
    runForTerminalSlot := ContRunBehavior.notImplB
      "Container._runForTerminal method has not been implemented." }

/-- A process whose terminal body returns False. -/
def c6FalseBodyProcess : Process :=
  { st := { name := "pFalse" },
    runForTerminal := ProcBehavior.retVal (PyVal.bool false) }

/-- A process whose terminal body returns True. -/
def c6TrueBodyProcess : Process :=
  { st := { name := "pTrue" },
    runForTerminal := ProcBehavior.retVal (PyVal.bool true) }

/-- A fully initialized container holding the False-body process followed
by the True-body process. -/
def c6Container : Container :=
  { name := "c7", hasInitialized := true, requiresUserDescription := false,
    processList := [c6FalseBodyProcess, c6TrueBodyProcess] }

/-! Helper lemmas shared by the claim theorems. -/

theorem runDepBehavior_preserves_flags (data : Data) (d : Dependency)
    (b : DepBehavior) :
    ((runDepBehavior data d b).2.1.st.isIgnorable = d.st.isIgnorable)
    ∧ ((runDepBehavior data d b).2.1.st.isIgnored = d.st.isIgnored) := by
  cases b <;> simp [runDepBehavior, depSetSuccess, depSetFailure]

theorem depRunLoop_preserves_flags (data : Data) (slots : List DepRunSlot) :
    ∀ (d : Dependency) (sigs : List Sig),
      ((depRunLoop data d sigs slots).2.1.st.isIgnorable = d.st.isIgnorable)
      ∧ ((depRunLoop data d sigs slots).2.1.st.isIgnored = d.st.isIgnored) := by
  induction slots with
  | nil => intro d sigs; exact ⟨rfl, rfl⟩
  | cons m rest ih =>
      intro d sigs
      unfold depRunLoop
      cases hm : depRunSlot? d m with
      | none => exact ih d sigs
      | some b =>
          have hb := runDepBehavior_preserves_flags data
            { d with st := { d.st with isExecuted := true } } b
          rcases hr : runDepBehavior data
            { d with st := { d.st with isExecuted := true } } b with ⟨r, d2, s2⟩
          rw [hr] at hb
          cases r with
          | ok v => simpa [hr] using hb
          | error e =>
              cases e with
              | notImplementedError msg =>
                  simpa [hr] using ih d2 (sigs ++ s2)
                    |>.imp (fun h => h.trans hb.1) (fun h => h.trans hb.2)
              | containerError msg => simpa [hr] using hb
              | processError msg => simpa [hr] using hb
              | dependencyError msg => simpa [hr] using hb
              | attributeError msg => simpa [hr] using hb

theorem depRun_preserves_flags (data : Data) (d : Dependency) :
    ((depRun data d).2.1.st.isIgnorable = d.st.isIgnorable)
    ∧ ((depRun data d).2.1.st.isIgnored = d.st.isIgnored) :=
  depRunLoop_preserves_flags data (depRunMethodOrder data.runMode) d []

/-! Claim theorems. -/

/-- Claim C10: whenever the hasInitialized flag of a Container is false,
Container.run() immediately returns the boolean False: the container state
is untouched and no signal is emitted, so neither _beforeRun, nor any
phase, nor any process body is invoked (containerAbs.py lines 1368-1369). -/
theorem containerRun_before_init_immediate_false (c : Container)
    (h : c.hasInitialized = false) :
    containerRun c = (Except.ok (PyVal.bool false), c, []) := by
  unfold containerRun
  simp [h]

/-- Witness for claim C10 at a concrete uninitialized container. -/
theorem containerRun_before_init_immediate_false_witness :
    containerRun { name := "w10" } =
      (Except.ok (PyVal.bool false), { name := "w10" }, []) :=
  containerRun_before_init_immediate_false { name := "w10" } rfl

/-- Claim C5, settled against the code as found: the Dependency class
defines no setIgnored method at all, so calling setIgnored on a Dependency
(ignorable or not) raises AttributeError instead of returning a boolean —
even though processAbs.py lines 802 and 841 invoke exactly that call.  The
described behaviour is implemented only by Process.setIgnored (processAbs.py
lines 666-673), proved in the third conjunct: it returns False and leaves
the state unchanged for a non-ignorable receiver and returns True and sets
the flag for an ignorable one. -/
theorem dependency_setIgnored_is_missing :
    (dependencyMethodNames.contains "setIgnored") = false
    ∧ (∀ (d : Dependency) (b : Bool), depCallSetIgnored d b =
        Except.error (PyError.attributeError
          "Dependency object has no attribute setIgnored"))
    ∧ (∀ (p : Process) (b : Bool), procSetIgnored p b =
        (p.st.isIgnorable,
         if p.st.isIgnorable then { p with st := { p.st with isIgnored := b } }
         else p)) := by
  refine ⟨by decide, fun d b => rfl, fun p b => ?_⟩
  by_cases h : p.st.isIgnorable <;> simp [procSetIgnored, h]

/-- Claim C7: on the Dependency failure path (_setFailure) the dependency is
marked executed and not succeeded, the stored failure message is overwritten
only by a truthy (non-empty) message, the boolean result signal is emitted
with False, the failure signal is emitted only when the run level includes
dependency phases, and the call returns False. -/
theorem dependency_setFailure_spec (data : Data) (d : Dependency)
    (msg : Option String) :
    (depSetFailure data d msg).1 = PyVal.bool false
    ∧ (depSetFailure data d msg).2.1.st.isExecuted = true
    ∧ (depSetFailure data d msg).2.1.st.isSucceeded = false
    ∧ (depSetFailure data d msg).2.1.st.failureMessage =
        (if strTruthy msg then msg else d.st.failureMessage)
    ∧ Sig.result false ∈ (depSetFailure data d msg).2.2
    ∧ (∀ s, Sig.failure s ∈ (depSetFailure data d msg).2.2 →
        runLevelHasDeps data.runLevel = true) := by
  refine ⟨rfl, rfl, rfl, rfl, ?_, ?_⟩
  · by_cases h : (runLevelHasDeps data.runLevel && strTruthy msg) = true <;>
      simp [depSetFailure, h]
  · intro s hs
    by_cases h : (runLevelHasDeps data.runLevel && strTruthy msg) = true
    · exact ((Bool.and_eq_true _ _).mp h).1
    · simp [depSetFailure, h] at hs

/-- Witness for claim C7 at concrete inputs. -/
theorem dependency_setFailure_spec_witness :
    (depSetFailure {} {} (Option.some "m")).1 = PyVal.bool false
    ∧ (depSetFailure {} {} (Option.some "m")).2.1.st.isExecuted = true
    ∧ (depSetFailure {} {} (Option.some "m")).2.1.st.isSucceeded = false
    ∧ (depSetFailure {} {} (Option.some "m")).2.1.st.failureMessage =
        (if strTruthy (Option.some "m") then Option.some "m"
         else ({} : Dependency).st.failureMessage)
    ∧ Sig.result false ∈ (depSetFailure {} {} (Option.some "m")).2.2
    ∧ (∀ s, Sig.failure s ∈ (depSetFailure {} {} (Option.some "m")).2.2 →
        runLevelHasDeps ({} : Data).runLevel = true) :=
  dependency_setFailure_spec {} {} (Option.some "m")

/-- Claim C3, settled against the code as found: in GUI mode the first two
probes follow the claimed order (a dependency implementing only the Terminal
runner is reached through the fallback, first conjunct), but the third probe
uses the misspelled attribute name `_runParentTerminal` instead of
`_runForParentTerminal` (dependencyAbs.py line 516, processAbs.py line 749,
containerAbs.py line 961), so a unit implementing only the ParentTerminal
handler is never invoked: its dispatch exhausts the order and raises the
typed no-run-method error. -/
theorem gui_dispatch_typo_skips_parent_terminal :
    (depRun guiData c3OnlyTerminalDep).1 = Except.ok (PyVal.bool true)
    ∧ (depRun guiData c3OnlyParentTerminalDep).1 =
        Except.error (PyError.dependencyError
          "No run method is available for this run mode.")
    ∧ (procRun guiData c3OnlyParentTerminalProcess).1 =
        Except.error (PyError.processError
          "No run method is available for this run mode.")
    ∧ (containerRunDispatch c3Container).1 =
        Except.error (PyError.containerError
          "No run method is available for this run mode.") :=
  ⟨rfl, rfl, rfl, rfl⟩

/-- Claim C4: when none of the three mode-specific handlers is implemented
(each raises NotImplementedError, and the misspelled GUI-order attribute is
absent), the dispatch of Dependency.run, Process.run and Container._run
exhausts its method preference order and raises the typed no-handler error
carrying the message `No run method is available for this run mode.`.  The
configuration (in particular raiseExceptions, which none of the three
dispatch loops consults) is universally quantified, so the error is raised
regardless of its value. -/
theorem no_handler_error_regardless_of_raise (data : Data)
    (d : Dependency) (p : Process) (c : Container) (m1 m2 m3 : String)
    (hd1 : d.runForTerminal =
      DepBehavior.raiseErr (PyError.notImplementedError m1))
    (hd2 : d.runForParentTerminal =
      DepBehavior.raiseErr (PyError.notImplementedError m2))
    (hd3 : d.runForGUI = DepBehavior.raiseErr (PyError.notImplementedError m3))
    (hd4 : d.runParentTerminalAttr = Option.none) (n1 n2 n3 : String)
    (hp1 : p.runForTerminal =
      ProcBehavior.raiseErr (PyError.notImplementedError n1))
    (hp2 : p.runForParentTerminal =
      ProcBehavior.raiseErr (PyError.notImplementedError n2))
    (hp3 : p.runForGUI = ProcBehavior.raiseErr (PyError.notImplementedError n3))
    (hp4 : p.runParentTerminalAttr = Option.none) (k1 k2 k3 : String)
    (hc1 : c.runForTerminalSlot = ContRunBehavior.notImplB k1)
    (hc2 : c.runForParentTerminalSlot = ContRunBehavior.notImplB k2)
    (hc3 : c.runForGUISlot = ContRunBehavior.notImplB k3)
    (hc4 : c.runParentTerminalAttr = Option.none)
    (q : Process) (qs : List Process) (hne : c.processList = q :: qs)
    (hud : c.requiresUserDescription = false) :
    (depRun data d).1 = Except.error (PyError.dependencyError
      "No run method is available for this run mode.")
    ∧ (procRun data p).1 = Except.error (PyError.processError
      "No run method is available for this run mode.")
    ∧ (containerRunDispatch c).1 = Except.error (PyError.containerError
      "No run method is available for this run mode.") := by
  refine ⟨?_, ?_, ?_⟩
  · cases hm : data.runMode <;>
      simp [depRun, depRunMethodOrder, hm, depRunLoop, depRunSlot?,
        hd1, hd2, hd3, hd4, runDepBehavior]
  · cases hm : data.runMode <;>
      simp [procRun, procRunMethodOrder, hm, procRunLoop, procRunSlot?,
        hp1, hp2, hp3, hp4, runProcBehavior]
  · cases hm : c.data.runMode <;>
      simp [containerRunDispatch, hne, hud, contRunMethodOrder, hm,
        contDispatchLoop, contRunSlot?, hc1, hc2, hc3, hc4, runContSlot]

/-- Witness for claim C4 at concrete all-unimplemented units. -/
theorem no_handler_error_regardless_of_raise_witness :
    (depRun {} c4AllNotImplDep).1 = Except.error (PyError.dependencyError
      "No run method is available for this run mode.")
    ∧ (procRun {} c4AllNotImplProcess).1 = Except.error (PyError.processError
      "No run method is available for this run mode.")
    ∧ (containerRunDispatch c4AllNotImplContainer).1 =
        Except.error (PyError.containerError
          "No run method is available for this run mode.") :=
  no_handler_error_regardless_of_raise {} c4AllNotImplDep c4AllNotImplProcess
    c4AllNotImplContainer _ _ _ rfl rfl rfl rfl _ _ _ rfl rfl rfl rfl _ _ _
    rfl rfl rfl rfl _ _ rfl rfl

/-- Counterexample to claim C2 as stated: for the container scenario with
one ignorable always-failing pre-dependency and
ignoreFailedPreDependencies=true, runPreDependencies does report success,
but the isIgnored flag of the dependency afterwards is false, not true as the
claim demands: the auto-ignore path (processAbs.py lines 795-797) only
displays the auto-ignored notice and never sets the flag. -/
theorem runPreDependencies_autoignore_cex :
    (procRunPreDependencies c2Data c2Process).1 = Except.ok (PyVal.bool true)
    ∧ (procRunPreDependencies c2Data c2Process).2.1.preDependencyList.map
        (fun d => d.st.isIgnored) = [false]
    ∧ (procRunPreDependencies c2Data c2Process).2.2 =
        [Sig.failure (ljust "depA" MESSAGE_PADDING ++ " : always fails"),
         Sig.result false,
         Sig.info (ljust "depA" MESSAGE_PADDING ++
           " : This dependency has been automatically ignored by the container.")] :=
  ⟨rfl, by decide, by decide⟩

/-- Claim C2 as amended: with ignoreFailedPreDependencies=true, a single
ignorable not-yet-ignored pre-dependency whose run yields a falsy result (or
raises) makes runPreDependencies report success, while the isIgnored flag
of the dependency remains false — it is only skipped for this run, with the
auto-ignored notice displayed. -/
theorem runPreDependencies_autoignore_amended
    (data : Data) (p : Process) (d : Dependency)
    (hpre : data.ignoreFailedPreDependencies = true)
    (hig : d.st.isIgnorable = true)
    (hnig : d.st.isIgnored = false)
    (hdeps : p.preDependencyList = [d])
    (hfail : ∀ v, (depRun data d).1 = Except.ok v → v.isTruthy = false) :
    (procRunPreDependencies data p).1 = Except.ok (PyVal.bool true)
    ∧ ∀ d1 ∈ (procRunPreDependencies data p).2.1.preDependencyList,
        d1.st.isIgnored = false := by
  have key : ∃ d1 sigs1, preDepStep data p d = DepStepOut.skipped d1 sigs1
      ∧ d1.st.isIgnored = false := by
    have hflags := depRun_preserves_flags data d
    rcases hr : depRun data d with ⟨r, d1, s1⟩
    rw [hr] at hflags
    simp only at hflags
    cases r with
    | error e =>
        refine ⟨d1, s1 ++ depDisplayAutoIgnoredMessage d1, ?_, ?_⟩
        · simp [preDepStep, hnig, hr, hpre, hflags.1, hig]
        · rw [hflags.2, hnig]
    | ok v =>
        have hv := hfail v (by rw [hr])
        refine ⟨d1, s1 ++ depDisplayAutoIgnoredMessage d1, ?_, ?_⟩
        · simp [preDepStep, hnig, hr, preDepFallback, hv, hpre, hflags.1, hig]
        · rw [hflags.2, hnig]
  obtain ⟨d1, sigs1, hstep, hd1⟩ := key
  constructor
  · simp [procRunPreDependencies, hdeps, preDepsLoop, hstep, listHasPyFalse]
  · intro x hx
    simp [procRunPreDependencies, hdeps, preDepsLoop, hstep] at hx
    rw [hx]
    exact hd1

/-- Witness for the amended claim C2 at the concrete scenario. -/
theorem runPreDependencies_autoignore_amended_witness :
    (procRunPreDependencies c2Data c2Process).1 = Except.ok (PyVal.bool true)
    ∧ ∀ d1 ∈ (procRunPreDependencies c2Data c2Process).2.1.preDependencyList,
        d1.st.isIgnored = false :=
  runPreDependencies_autoignore_amended c2Data c2Process c2FailDep rfl rfl rfl
    rfl (fun v h => by
      rw [show (depRun c2Data c2FailDep).1 = Except.ok (PyVal.bool false)
        from rfl] at h
      injection h with h2
      rw [← h2]
      rfl)

/-- Counterexample to claim C1 as stated: a non-raising container whose only
process body raises an ordinary exception.  The exception is converted into
an emitted failure message by the process phase (containerAbs.py lines
1040-1044), nothing is appended to the collected result list, and the whole
run returns True — not the boolean False the claim demands for any
process-body failure. -/
theorem containerRun_failure_returns_true_cex :
    (containerRun c1BodyRaisesContainer).1 = Except.ok (PyVal.bool true)
    ∧ (containerRun c1BodyRaisesContainer).2.2 =
        [Sig.header "C1 - CONTAINER", Sig.header "P1 - PRE DEPENDENCY",
         Sig.header "P1 - PROCESS", Sig.failure "process body exploded",
         Sig.header "P1 - POST DEPENDENCY"] :=
  ⟨rfl, by decide⟩

/-- Claim C1 as amended: with raiseExceptions=false, Container.run() never
propagates an exception (first conjunct: the result is always an ok value);
a discovery that left no processes yields the boolean False (second
conjunct); a dependency-execution failure yields the boolean False (third
conjunct, at the concrete failing-pre-dependency container); but a failure
that reaches run() as a caught exception makes run() return None rather
than False, because `return self._setFailure(...)` returns the None result
of Container._setFailure (fourth conjunct). -/
theorem containerRun_nonraising_amended :
    (∀ c : Container, c.data.raiseExceptions = false →
       ∃ v, (containerRun c).1 = Except.ok v)
    ∧ (∀ c : Container, c.data.raiseExceptions = false →
         c.hasInitialized = true →
         c.beforeRunB = HookBehavior.retVal (PyVal.bool true) →
         c.processList = [] →
         (containerRun c).1 = Except.ok (PyVal.bool false))
    ∧ (containerRun c1DepFailContainer).1 = Except.ok (PyVal.bool false)
    ∧ (containerRun c1BeforeRunRaisesContainer).1 = Except.ok PyVal.none := by
  refine ⟨?_, ?_, rfl, rfl⟩
  · intro c h
    unfold containerRun
    repeat' split
    all_goals first
      | exact ⟨_, rfl⟩
      | simp_all
  · intro c h h1 hb he
    simp [containerRun, containerRunDispatch, h, h1, hb, he, runHook,
      PyVal.isTruthy]

/-- Witness for the amended claim C1 at a concrete container with an empty
process list. -/
theorem containerRun_nonraising_amended_witness :
    (∃ v, (containerRun c1EmptyProcessContainer).1 = Except.ok v)
    ∧ (containerRun c1EmptyProcessContainer).1 = Except.ok (PyVal.bool false) :=
  ⟨containerRun_nonraising_amended.1 c1EmptyProcessContainer rfl,
   containerRun_nonraising_amended.2.1 c1EmptyProcessContainer rfl rfl rfl rfl⟩

theorem containerProcessLoop_fst_indep (data : Data) :
    ∀ (ps : List Process) (acc : List PyVal) (s1 s2 : List Sig),
      (containerProcessLoop data ps acc s1).1 =
      (containerProcessLoop data ps acc s2).1 := by
  intro ps
  induction ps with
  | nil => intro acc s1 s2; rfl
  | cons p rest ih =>
      intro acc s1 s2
      unfold containerProcessLoop
      by_cases hig : p.st.isIgnored = true
      · simp only [hig, if_true]
        exact ih acc s1 s2
      · simp only [hig]
        rcases hr : procRun data p with ⟨r, s⟩
        cases r with
        | error e =>
            by_cases hre : data.raiseExceptions = true
            · simp [hre]
            · simp only [hre, Bool.false_eq_true, if_false]
              exact ih acc _ _
        | ok v =>
            simp only []
            exact ih (acc ++ [v]) _ _

/-- Claim C6: in the container process phase every non-ignored process body
is executed and its explicit results are collected in order (second
conjunct: the concrete two-process container collects [False, True]); when
the run level selects the process phase, the terminal runner returns False
exactly when the collected results contain an explicit False, regardless of
any True results (first conjunct); and in particular the full run of the
two-process container whose first body returns False and second returns
True yields False (third conjunct). -/
theorem container_process_phase_all_or_nothing :
    (∀ (c : Container) (res : List PyVal),
       c.data.runLevel = RunLevel.kProcessOnly →
       (containerProcessLoop c.data c.processList [] []).1 = Except.ok res →
       (containerRunForTerminal c).1 =
         Except.ok (PyVal.bool (!listHasPyFalse res)))
    ∧ (containerProcessLoop c6Container.data c6Container.processList [] []).1 =
        Except.ok [PyVal.bool false, PyVal.bool true]
    ∧ (containerRun c6Container).1 = Except.ok (PyVal.bool false) := by
  refine ⟨?_, rfl, rfl⟩
  intro c res hrl hloop
  have hpre : runLevelHasPre c.data.runLevel = false := by
    simp [runLevelHasPre, hrl]
  have hproc : runLevelHasProcess c.data.runLevel = true := by
    simp [runLevelHasProcess, hrl]
  have hpost : runLevelHasPost c.data.runLevel = false := by
    simp [runLevelHasPost, hrl]
  have hfst := containerProcessLoop_fst_indep c.data c.processList [] []
    [Sig.header (pyUpper c.name ++ " - CONTAINER")]
  rw [hloop] at hfst
  show (containerRunForTerminalCore c.data c.name c.processList).1 = _
  unfold containerRunForTerminalCore
  rcases hl : containerProcessLoop c.data c.processList []
      [Sig.header (pyUpper c.name ++ " - CONTAINER")] with ⟨r2, s2⟩
  rw [hl] at hfst
  simp only at hfst
  simp only [hpre, hproc, hpost, Bool.false_eq_true, if_false, if_true, hl]
  rw [← hfst]
  by_cases h6 : listHasPyFalse res = true <;> simp [h6]

/-- Witness for claim C6 at a concrete kProcessOnly container. -/
theorem container_process_phase_all_or_nothing_witness :
    (containerRunForTerminal
        { data := { runLevel := RunLevel.kProcessOnly },
          name := "w6", processList := [c6FalseBodyProcess] }).1 =
      Except.ok (PyVal.bool false) :=
  container_process_phase_all_or_nothing.1
    { data := { runLevel := RunLevel.kProcessOnly },
      name := "w6", processList := [c6FalseBodyProcess] }
    [PyVal.bool false] rfl rfl

theorem runDepBehavior_keeps_executed (data : Data) (d : Dependency)
    (b : DepBehavior) (h : d.st.isExecuted = true) :
    ((runDepBehavior data d b).2.1).st.isExecuted = true := by
  cases b <;> simp [runDepBehavior, depSetSuccess, depSetFailure, h]

theorem depRunLoop_keeps_inv (data : Data) (slots : List DepRunSlot) :
    ∀ (d : Dependency) (sigs : List Sig), DepInv d.st →
      DepInv ((depRunLoop data d sigs slots).2.1).st := by
  induction slots with
  | nil => intro d sigs h; exact h
  | cons m rest ih =>
      intro d sigs h
      unfold depRunLoop
      cases hm : depRunSlot? d m with
      | none => exact ih d sigs h
      | some b =>
          have h2 := runDepBehavior_keeps_executed data
            { d with st := { d.st with isExecuted := true } } b rfl
          rcases hr : runDepBehavior data
            { d with st := { d.st with isExecuted := true } } b with ⟨r, d2, s2⟩
          rw [hr] at h2
          have hinv2 : DepInv d2.st := by
            intro hf
            rw [h2] at hf
            exact Bool.noConfusion hf
          cases r with
          | ok v => simpa [hr] using hinv2
          | error e =>
              cases e with
              | notImplementedError msg =>
                  simpa [hr] using ih d2 (sigs ++ s2) hinv2
              | containerError msg => simpa [hr] using hinv2
              | processError msg => simpa [hr] using hinv2
              | dependencyError msg => simpa [hr] using hinv2
              | attributeError msg => simpa [hr] using hinv2

/-- Claim C8: the implication `isExecuted = false implies isSucceeded =
false and failureMessage = None` holds for the freshly constructed
dependency state, is preserved by Dependency.run and holds after the
success and failure paths, and reset() restores the triple to (false,
false, None). -/
theorem dependency_triple_invariant :
    DepInv ({} : DepState)
    ∧ (∀ (data : Data) (d : Dependency), DepInv d.st →
         DepInv ((depRun data d).2.1).st)
    ∧ (∀ (d : Dependency) (m : String), DepInv ((depSetSuccess d m).2.1).st)
    ∧ (∀ (data : Data) (d : Dependency) (m : Option String),
         DepInv ((depSetFailure data d m).2.1).st)
    ∧ (∀ d : Dependency, (depReset d).st.isExecuted = false
         ∧ (depReset d).st.isSucceeded = false
         ∧ (depReset d).st.failureMessage = Option.none) := by
  refine ⟨fun _ => ⟨rfl, rfl⟩, ?_, ?_, ?_, fun d => ⟨rfl, rfl, rfl⟩⟩
  · intro data d h
    exact depRunLoop_keeps_inv data (depRunMethodOrder data.runMode) d [] h
  · intro d m hf
    simp [depSetSuccess] at hf
  · intro data d m hf
    simp [depSetFailure] at hf

/-- Witness for claim C8: the preserved invariant applied at a concrete
dependency. -/
theorem dependency_triple_invariant_witness :
    DepInv ((depRun {} {}).2.1).st :=
  dependency_triple_invariant.2.1 {} {} (fun _ => ⟨rfl, rfl⟩)

/-! Congruence lemmas for claim C9: replacing the
ignoreFailedPostDependencies flag changes nothing that any core operation
reads. -/

theorem withIgnorePost_runMode (dd : Data) (b : Bool) :
    (dd.withIgnorePost b).runMode = dd.runMode := rfl

theorem withIgnorePost_runLevel (dd : Data) (b : Bool) :
    (dd.withIgnorePost b).runLevel = dd.runLevel := rfl

theorem withIgnorePost_ignorePre (dd : Data) (b : Bool) :
    (dd.withIgnorePost b).ignoreFailedPreDependencies =
      dd.ignoreFailedPreDependencies := rfl

theorem withIgnorePost_raiseExceptions (dd : Data) (b : Bool) :
    (dd.withIgnorePost b).raiseExceptions = dd.raiseExceptions := rfl

theorem withIgnorePost_userDescription (dd : Data) (b : Bool) :
    (dd.withIgnorePost b).userDescription = dd.userDescription := rfl

theorem cWithIgnorePost_data (c : Container) (b : Bool) :
    (c.withIgnorePost b).data = c.data.withIgnorePost b := rfl

theorem cWithIgnorePost_name (c : Container) (b : Bool) :
    (c.withIgnorePost b).name = c.name := rfl

theorem cWithIgnorePost_className (c : Container) (b : Bool) :
    (c.withIgnorePost b).className = c.className := rfl

theorem cWithIgnorePost_processList (c : Container) (b : Bool) :
    (c.withIgnorePost b).processList = c.processList := rfl

theorem cWithIgnorePost_hasInitialized (c : Container) (b : Bool) :
    (c.withIgnorePost b).hasInitialized = c.hasInitialized := rfl

theorem cWithIgnorePost_requiresUserDescription (c : Container) (b : Bool) :
    (c.withIgnorePost b).requiresUserDescription =
      c.requiresUserDescription := rfl

theorem cWithIgnorePost_beforeRunB (c : Container) (b : Bool) :
    (c.withIgnorePost b).beforeRunB = c.beforeRunB := rfl

theorem cWithIgnorePost_afterRunB (c : Container) (b : Bool) :
    (c.withIgnorePost b).afterRunB = c.afterRunB := rfl

theorem cWithIgnorePost_setProcessList (c : Container) (b : Bool)
    (ps : List Process) :
    ({ c.withIgnorePost b with processList := ps } : Container) =
      ({ c with processList := ps } : Container).withIgnorePost b := rfl

theorem depSetFailure_ipost (dd : Data) (b : Bool) (d : Dependency)
    (m : Option String) :
    depSetFailure (dd.withIgnorePost b) d m = depSetFailure dd d m := by
  simp [depSetFailure, withIgnorePost_runLevel]

theorem runDepBehavior_ipost (dd : Data) (b : Bool) (d : Dependency)
    (bh : DepBehavior) :
    runDepBehavior (dd.withIgnorePost b) d bh = runDepBehavior dd d bh := by
  cases bh <;> simp [runDepBehavior, depSetFailure_ipost]

theorem depRunLoop_ipost (dd : Data) (b : Bool) :
    ∀ (slots : List DepRunSlot) (d : Dependency) (sigs : List Sig),
      depRunLoop (dd.withIgnorePost b) d sigs slots =
        depRunLoop dd d sigs slots := by
  intro slots
  induction slots with
  | nil => intro d sigs; rfl
  | cons m rest ih =>
      intro d sigs
      unfold depRunLoop
      cases hm : depRunSlot? d m with
      | none => exact ih d sigs
      | some bh =>
          dsimp only
          rw [runDepBehavior_ipost]
          rcases hr : runDepBehavior dd
            { d with st := { d.st with isExecuted := true } } bh with ⟨r, d2, s2⟩
          cases r with
          | ok v => rfl
          | error e =>
              cases e with
              | notImplementedError msg => exact ih d2 (sigs ++ s2)
              | containerError msg => rfl
              | processError msg => rfl
              | dependencyError msg => rfl
              | attributeError msg => rfl

theorem depRun_ipost (dd : Data) (b : Bool) (d : Dependency) :
    depRun (dd.withIgnorePost b) d = depRun dd d := by
  unfold depRun
  rw [withIgnorePost_runMode, depRunLoop_ipost]

theorem depFixLoop_ipost (dd : Data) (b : Bool) :
    ∀ (slots : List DepRunSlot) (d : Dependency) (sigs : List Sig),
      depFixLoop (dd.withIgnorePost b) d sigs slots =
        depFixLoop dd d sigs slots := by
  intro slots
  induction slots with
  | nil => intro d sigs; rfl
  | cons m rest ih =>
      intro d sigs
      unfold depFixLoop
      cases hm : depFixSlot? d m with
      | none => exact ih d sigs
      | some bh =>
          dsimp only
          rw [runDepBehavior_ipost]
          rcases hr : runDepBehavior dd d bh with ⟨r, d2, s2⟩
          cases r with
          | ok v => rfl
          | error e =>
              cases e with
              | notImplementedError msg => exact ih d2 (sigs ++ s2)
              | containerError msg => rfl
              | processError msg => rfl
              | dependencyError msg => rfl
              | attributeError msg => rfl

theorem depRunFix_ipost (dd : Data) (b : Bool) (d : Dependency) :
    depRunFix (dd.withIgnorePost b) d = depRunFix dd d := by
  simp only [depRunFix, withIgnorePost_runMode, depFixLoop_ipost]

theorem procSetFailure_ipost (dd : Data) (b : Bool) (p : Process)
    (m : Option String) :
    procSetFailure (dd.withIgnorePost b) p m = procSetFailure dd p m := by
  simp [procSetFailure, withIgnorePost_runLevel]

theorem preDepFallback_ipost (dd : Data) (b : Bool) (d : Dependency)
    (v : PyVal) :
    preDepFallback (dd.withIgnorePost b) d v = preDepFallback dd d v := by
  simp only [preDepFallback, withIgnorePost_ignorePre, depRunFix_ipost]

theorem preDepStep_ipost (dd : Data) (b : Bool) (p : Process)
    (d : Dependency) :
    preDepStep (dd.withIgnorePost b) p d = preDepStep dd p d := by
  simp only [preDepStep, depRun_ipost, withIgnorePost_ignorePre,
    withIgnorePost_raiseExceptions, procSetFailure_ipost, preDepFallback_ipost]

theorem preDepsLoop_ipost (dd : Data) (b : Bool) (p : Process) :
    ∀ (deps : List Dependency) (acc : List PyVal) (done : List Dependency)
      (sigs : List Sig),
      preDepsLoop (dd.withIgnorePost b) p deps acc done sigs =
        preDepsLoop dd p deps acc done sigs := by
  intro deps
  induction deps with
  | nil => intro acc done sigs; rfl
  | cons d rest ih =>
      intro acc done sigs
      unfold preDepsLoop
      rw [preDepStep_ipost]
      cases hstep : preDepStep dd p d with
      | skipped d1 s1 => exact ih acc (d1 :: done) (sigs ++ s1)
      | recorded d1 r s1 => exact ih (acc ++ [r]) (d1 :: done) (sigs ++ s1)
      | raised e d1 s1 => rfl

theorem procRunPreDependencies_ipost (dd : Data) (b : Bool) (p : Process) :
    procRunPreDependencies (dd.withIgnorePost b) p =
      procRunPreDependencies dd p := by
  unfold procRunPreDependencies
  cases hp : p.preDependencyList with
  | nil => rfl
  | cons x xs => simp only [preDepsLoop_ipost]

theorem postDepFallback_ipost (dd : Data) (b : Bool) (d : Dependency)
    (v : PyVal) :
    postDepFallback (dd.withIgnorePost b) d v = postDepFallback dd d v := by
  simp only [postDepFallback, withIgnorePost_ignorePre, depRunFix_ipost]

theorem postDepStep_ipost (dd : Data) (b : Bool) (p : Process)
    (d : Dependency) :
    postDepStep (dd.withIgnorePost b) p d = postDepStep dd p d := by
  simp only [postDepStep, depRun_ipost, withIgnorePost_raiseExceptions,
    procSetFailure_ipost, postDepFallback_ipost]

theorem postDepsLoop_ipost (dd : Data) (b : Bool) (p : Process) :
    ∀ (deps : List Dependency) (acc : List PyVal) (done : List Dependency)
      (sigs : List Sig),
      postDepsLoop (dd.withIgnorePost b) p deps acc done sigs =
        postDepsLoop dd p deps acc done sigs := by
  intro deps
  induction deps with
  | nil => intro acc done sigs; rfl
  | cons d rest ih =>
      intro acc done sigs
      unfold postDepsLoop
      rw [postDepStep_ipost]
      cases hstep : postDepStep dd p d with
      | skipped d1 s1 => exact ih acc (d1 :: done) (sigs ++ s1)
      | recorded d1 r s1 => exact ih (acc ++ [r]) (d1 :: done) (sigs ++ s1)
      | raised e d1 s1 => rfl

theorem procRunPostDependencies_ipost (dd : Data) (b : Bool) (p : Process) :
    procRunPostDependencies (dd.withIgnorePost b) p =
      procRunPostDependencies dd p := by
  unfold procRunPostDependencies
  cases hp : p.postDependencyList with
  | nil => rfl
  | cons x xs => simp only [postDepsLoop_ipost]

theorem runProcBehavior_ipost (dd : Data) (b : Bool) (p : Process)
    (bh : ProcBehavior) :
    runProcBehavior (dd.withIgnorePost b) p bh = runProcBehavior dd p bh := by
  cases bh <;> simp [runProcBehavior, procSetFailure_ipost]

theorem procRunLoop_ipost (dd : Data) (b : Bool) (p : Process) :
    ∀ (slots : List DepRunSlot) (sigs : List Sig),
      procRunLoop (dd.withIgnorePost b) p sigs slots =
        procRunLoop dd p sigs slots := by
  intro slots
  induction slots with
  | nil => intro sigs; rfl
  | cons m rest ih =>
      intro sigs
      unfold procRunLoop
      cases hm : procRunSlot? p m with
      | none => exact ih sigs
      | some bh =>
          dsimp only
          rw [runProcBehavior_ipost]
          rcases hr : runProcBehavior dd p bh with ⟨r, s2⟩
          cases r with
          | ok v => rfl
          | error e =>
              cases e with
              | notImplementedError msg => exact ih (sigs ++ s2)
              | containerError msg => rfl
              | processError msg => rfl
              | dependencyError msg => rfl
              | attributeError msg => rfl

theorem procRun_ipost (dd : Data) (b : Bool) (p : Process) :
    procRun (dd.withIgnorePost b) p = procRun dd p := by
  unfold procRun
  rw [withIgnorePost_runMode, procRunLoop_ipost]

theorem containerDepPhaseLoop_ipost (dd : Data) (b : Bool)
    (phase : Data → Process → Except PyError PyVal × Process × List Sig)
    (label : String)
    (hphase : ∀ q, phase (dd.withIgnorePost b) q = phase dd q) :
    ∀ (ps : List Process) (result : Bool) (done : List Process)
      (sigs : List Sig),
      containerDepPhaseLoop (dd.withIgnorePost b) phase label ps result
        done sigs =
      containerDepPhaseLoop dd phase label ps result done sigs := by
  intro ps
  induction ps with
  | nil => intro result done sigs; rfl
  | cons p rest ih =>
      intro result done sigs
      unfold containerDepPhaseLoop
      by_cases hig : p.st.isIgnored = true
      · simp only [hig, if_true]
        exact ih result (p :: done) sigs
      · rw [if_neg hig, if_neg hig, hphase p]
        rcases hr : phase dd p with ⟨r, p1, s1⟩
        simp only [hr]
        cases r with
        | error e => rfl
        | ok v =>
            dsimp only
            rw [withIgnorePost_ignorePre]
            by_cases hv : (!(decide (v = PyVal.bool true))) = true
            · rw [if_pos hv, if_pos hv]
              by_cases hi :
                  (dd.ignoreFailedPreDependencies && p1.st.isIgnorable) = true
              · rw [if_pos hi, if_pos hi]
                exact ih _ _ _
              · rw [if_neg hi, if_neg hi]
                exact ih _ _ _
            · rw [if_neg hv, if_neg hv]
              exact ih _ _ _

theorem containerProcessLoop_ipost (dd : Data) (b : Bool) :
    ∀ (ps : List Process) (acc : List PyVal) (sigs : List Sig),
      containerProcessLoop (dd.withIgnorePost b) ps acc sigs =
        containerProcessLoop dd ps acc sigs := by
  intro ps
  induction ps with
  | nil => intro acc sigs; rfl
  | cons p rest ih =>
      intro acc sigs
      unfold containerProcessLoop
      by_cases hig : p.st.isIgnored = true
      · simp only [hig, if_true]
        exact ih acc sigs
      · rw [if_neg hig, if_neg hig, procRun_ipost]
        rcases hr : procRun dd p with ⟨r, s1⟩
        simp only [hr]
        cases r with
        | error e =>
            dsimp only
            rw [withIgnorePost_raiseExceptions]
            by_cases hre : dd.raiseExceptions = true
            · rw [if_pos hre, if_pos hre]
            · rw [if_neg hre, if_neg hre]
              exact ih _ _
        | ok v => exact ih _ _

theorem containerRunForTerminalCore_ipost (dd : Data) (b : Bool)
    (name : String) (ps0 : List Process) :
    containerRunForTerminalCore (dd.withIgnorePost b) name ps0 =
      containerRunForTerminalCore dd name ps0 := by
  unfold containerRunForTerminalCore
  simp only [withIgnorePost_runLevel,
    containerDepPhaseLoop_ipost dd b procRunPreDependencies "PRE DEPENDENCY"
      (fun q => procRunPreDependencies_ipost dd b q),
    containerDepPhaseLoop_ipost dd b procRunPostDependencies "POST DEPENDENCY"
      (fun q => procRunPostDependencies_ipost dd b q),
    containerProcessLoop_ipost]

theorem containerRunForTerminal_ipost (c : Container) (b : Bool) :
    containerRunForTerminal (c.withIgnorePost b) =
      ((containerRunForTerminal c).1,
       ((containerRunForTerminal c).2.1).withIgnorePost b,
       (containerRunForTerminal c).2.2) := by
  unfold containerRunForTerminal
  simp only [cWithIgnorePost_data, cWithIgnorePost_name,
    cWithIgnorePost_processList, containerRunForTerminalCore_ipost]
  rfl

theorem contRunSlotLookup_ipost (c : Container) (b : Bool) (m : DepRunSlot) :
    contRunSlot? (c.withIgnorePost b) m = contRunSlot? c m := by
  cases m <;> rfl

theorem runContSlot_ipost (c : Container) (b : Bool) (bh : ContRunBehavior) :
    runContSlot (c.withIgnorePost b) bh =
      ((runContSlot c bh).1, ((runContSlot c bh).2.1).withIgnorePost b,
       (runContSlot c bh).2.2) := by
  cases bh with
  | canonical => exact containerRunForTerminal_ipost c b
  | notImplB m => rfl
  | retVal v => rfl
  | raiseErr e => rfl

theorem contDispatchLoop_ipost (b : Bool) :
    ∀ (slots : List DepRunSlot) (c : Container) (sigs : List Sig),
      contDispatchLoop (c.withIgnorePost b) sigs slots =
        ((contDispatchLoop c sigs slots).1,
         ((contDispatchLoop c sigs slots).2.1).withIgnorePost b,
         (contDispatchLoop c sigs slots).2.2) := by
  intro slots
  induction slots with
  | nil => intro c sigs; rfl
  | cons m rest ih =>
      intro c sigs
      unfold contDispatchLoop
      rw [contRunSlotLookup_ipost]
      cases hs : contRunSlot? c m with
      | none => exact ih c sigs
      | some bh =>
          dsimp only
          rw [runContSlot_ipost]
          rcases hr : runContSlot c bh with ⟨r, c2, s2⟩
          cases r with
          | ok v => rfl
          | error e =>
              cases e with
              | notImplementedError msg => exact ih c2 (sigs ++ s2)
              | containerError msg => rfl
              | processError msg => rfl
              | dependencyError msg => rfl
              | attributeError msg => rfl

theorem containerRunDispatch_ipost (c : Container) (b : Bool) :
    containerRunDispatch (c.withIgnorePost b) =
      ((containerRunDispatch c).1,
       ((containerRunDispatch c).2.1).withIgnorePost b,
       (containerRunDispatch c).2.2) := by
  unfold containerRunDispatch
  simp only [cWithIgnorePost_processList, cWithIgnorePost_name,
    cWithIgnorePost_className, cWithIgnorePost_requiresUserDescription,
    cWithIgnorePost_data, withIgnorePost_userDescription,
    withIgnorePost_raiseExceptions, withIgnorePost_runMode]
  cases hp : c.processList with
  | nil => rfl
  | cons q qs =>
      by_cases hg :
          (c.requiresUserDescription && !strTruthy c.data.userDescription) = true
      · rw [if_pos hg, if_pos hg]
        by_cases hre : c.data.raiseExceptions = true
        · rw [if_pos hre, if_pos hre]
        · rw [if_neg hre, if_neg hre]
      · rw [if_neg hg, if_neg hg]
        exact contDispatchLoop_ipost b (contRunMethodOrder c.data.runMode) c []

theorem containerRun_ipost (c : Container) (b : Bool) :
    containerRun (c.withIgnorePost b) =
      ((containerRun c).1, ((containerRun c).2.1).withIgnorePost b,
       (containerRun c).2.2) := by
  unfold containerRun
  simp only [cWithIgnorePost_hasInitialized, cWithIgnorePost_beforeRunB,
    cWithIgnorePost_afterRunB, cWithIgnorePost_data,
    withIgnorePost_raiseExceptions, containerRunDispatch_ipost]
  by_cases h1 : c.hasInitialized = true
  · rw [if_neg (by simp [h1]), if_neg (by simp [h1])]
    cases hb : runHook c.beforeRunB with
    | error e =>
        dsimp only
        by_cases hre : c.data.raiseExceptions = true
        · rw [if_pos hre, if_pos hre]
        · rw [if_neg hre, if_neg hre]
    | ok v =>
        dsimp only
        by_cases hv : (!v.isTruthy) = true
        · rw [if_pos hv, if_pos hv]
        · rw [if_neg hv, if_neg hv]
          rcases hd : containerRunDispatch c with ⟨r, c1, s1⟩
          dsimp only
          cases r with
          | error e =>
              dsimp only
              by_cases hre : c.data.raiseExceptions = true
              · rw [if_pos hre, if_pos hre]
              · rw [if_neg hre, if_neg hre]
          | ok v1 =>
              dsimp only
              by_cases hv1 : (!v1.isTruthy) = true
              · rw [if_pos hv1, if_pos hv1]
              · rw [if_neg hv1, if_neg hv1]
                cases ha : runHook c.afterRunB with
                | error e2 =>
                    dsimp only
                    by_cases hre : c.data.raiseExceptions = true
                    · rw [if_pos hre, if_pos hre]
                    · rw [if_neg hre, if_neg hre]
                | ok v2 =>
                    dsimp only
                    by_cases hv2 : (!v2.isTruthy) = true
                    · rw [if_pos hv2, if_pos hv2]
                    · rw [if_neg hv2, if_neg hv2]
  · rw [if_pos (by simp [Bool.not_eq_true] at h1; simp [h1]),
        if_pos (by simp [Bool.not_eq_true] at h1; simp [h1])]

/-- Claim C9: the ignoreFailedPostDependencies flag is never read by any
core operation — the post-phase forced-ignore branch consults
ignoreFailedPreDependencies instead (processAbs.py line 840, containerAbs.py
line 1080) — so two runs whose configurations differ only in that flag are
indistinguishable: Process.runPostDependencies produces the identical
result, dependency state and signal trace, and Container.run produces the
identical result and signal trace with a final container state identical up
to the flag itself. -/
theorem ignoreFailedPostDependencies_never_read :
    (∀ (dd : Data) (b : Bool) (p : Process),
       procRunPostDependencies (dd.withIgnorePost b) p =
         procRunPostDependencies dd p)
    ∧ (∀ (c : Container) (b : Bool),
       containerRun (c.withIgnorePost b) =
         ((containerRun c).1, ((containerRun c).2.1).withIgnorePost b,
          (containerRun c).2.2)) :=
  ⟨fun dd b p => procRunPostDependencies_ipost dd b p,
   fun c b => containerRun_ipost c b⟩

end MProcess
